import Mathlib

/-!
Verification of the format-resolution and fallback engine of the
compresor-conversor-imagenes repository.  The definitions below are a
shallow embedding of `src/core/format_handler.py` and
`src/core/compression_engine.py`: pure Python helpers become Lean
functions, filesystem state is passed explicitly (an existence predicate
for path allocation, a path-indexed file map for the engine), and the
availability of optional encoders (AVIF/HEIF, reportlab, wand) is a
boolean field of an explicit environment, mirroring the
`try/except ImportError` probing of the source.
-/

/-! ## String and path helpers (models of `os.path` / `str` operations) -/

/-- Index of the last occurrence of a character in a character list,
modelling Python `str.rfind` restricted to single-character needles. -/
def lastIdxOf (cs : List Char) (c : Char) : Option Nat :=
  ((cs.enum.filter (fun pv => pv.2 = c)).map (fun pv => pv.1)).getLast?

/-- Model of `os.path.splitext`: split at the last dot that follows the
last slash, treating a basename made only of leading dots as having no
extension (CPython `genericpath._splitext`). -/
def splitext (p : String) : String × String :=
  let cs := p.data
  let sepIdx : Int :=
    match lastIdxOf cs '/' with
    | none => -1
    | some i => (i : Int)
  match lastIdxOf cs '.' with
  | none => (p, "")
  | some d =>
    if sepIdx < (d : Int) then
      let startIdx := (sepIdx + 1).toNat
      if ((cs.drop startIdx).take (d - startIdx)).all (fun c => c = '.') then
        (p, "")
      else
        (⟨cs.take d⟩, ⟨cs.drop d⟩)
    else (p, "")

/-- Model of `os.path.basename` for POSIX paths. -/
def basename (p : String) : String :=
  match lastIdxOf p.data '/' with
  | none => p
  | some i => ⟨p.data.drop (i + 1)⟩

/-- Model of `os.path.dirname` for POSIX paths. -/
def dirname (p : String) : String :=
  match lastIdxOf p.data '/' with
  | none => ""
  | some i =>
    let head := p.data.take (i + 1)
    if head.all (fun c => c = '/') then ⟨head⟩
    else ⟨(head.reverse.dropWhile (fun c => c = '/')).reverse⟩

/-- Model of `os.path.join` for POSIX paths (two arguments). -/
def joinPath (a b : String) : String :=
  if b.data.head? = some '/' then b
  else if a = "" then b
  else if a.data.getLast? = some '/' then a ++ b
  else a ++ "/" ++ b

/-- ASCII lowering of a string, modelling `str.lower` on extensions. -/
def lowerStr (s : String) : String := ⟨s.data.map Char.toLower⟩

/-- ASCII raising of a string, modelling `str.upper`. -/
def upperStr (s : String) : String := ⟨s.data.map Char.toUpper⟩

/-- Model of `str.lstrip` with a dot argument: drop all leading dots. -/
def stripDots (s : String) : String := ⟨s.data.dropWhile (fun c => c = '.')⟩

/-- Whether the first list starts with the second. -/
def listStartsWith : List Char → List Char → Bool
  | _, [] => true
  | [], _ :: _ => false
  | c :: cs, q :: qs => c = q && listStartsWith cs qs

/-- Left-to-right, non-overlapping replacement of every occurrence of a
nonempty pattern, modelling Python `str.replace` for the nonempty
patterns the source uses (file extensions).  The fuel argument only
bounds the recursion; each step consumes at least one character, so any
fuel at least the list length gives the full scan. -/
def replaceAllFuel (pat rep : List Char) : Nat → List Char → List Char
  | 0, s => s
  | _ + 1, [] => []
  | fuel + 1, c :: cs =>
    if listStartsWith (c :: cs) pat = true ∧ pat ≠ [] then
      rep ++ replaceAllFuel pat rep fuel (cs.drop (pat.length - 1))
    else c :: replaceAllFuel pat rep fuel cs

/-- String version of `replaceAllFuel`. -/
def replaceAll (s pat rep : String) : String :=
  ⟨replaceAllFuel pat.data rep.data s.data.length s.data⟩

/-- The requested extension of a destination path, lowercased:
`os.path.splitext(output_path)[1].lower()`. -/
def extOfPath (p : String) : String := lowerStr (splitext p).2

/-! ## Path allocation (`generate_unique_filename`, format_handler.py 15-38) -/

/-- The `while True` loop of `generate_unique_filename`: try
`name_copyN.ext` for increasing `N`; once the counter passes 100, give
up and return a timestamp-suffixed path without checking it. -/
def uniqueLoop (fsE : String → Bool) (d n e : String) (ts : Nat) (counter : Nat) : String :=
  let new_path := joinPath d (n ++ "_copy" ++ toString counter ++ e)
  if fsE new_path = false then new_path
  else if _h : counter + 1 > 100 then joinPath d (n ++ "_" ++ toString ts ++ e)
  else uniqueLoop fsE d n e ts (counter + 1)
termination_by 101 - counter
decreasing_by omega

/-- Model of `generate_unique_filename`.  `fsE` is the filesystem
existence predicate (`os.path.exists`), `ts` the value of
`int(time.time())` at the moment the loop gives up. -/
def generate_unique_filename (fsE : String → Bool) (ts : Nat) (output_path : String) : String :=
  if fsE output_path = false then output_path
  else
    let directory := dirname output_path
    let filename := basename output_path
    let ne := splitext filename
    uniqueLoop fsE directory ne.1 ne.2 ts 1

/-- The `_copyN` candidate path the allocator tries for a given counter. -/
def copyPathOf (p : String) (k : Nat) : String :=
  joinPath (dirname p) ((splitext (basename p)).1 ++ "_copy" ++ toString k ++ (splitext (basename p)).2)

/-- The timestamp-suffixed path the allocator falls back to. -/
def tsPathOf (p : String) (ts : Nat) : String :=
  joinPath (dirname p) ((splitext (basename p)).1 ++ "_" ++ toString ts ++ (splitext (basename p)).2)

/-! ## Image model

An opened PIL image is modelled by its color mode, pixel dimensions and
pixel data.  Every pixel is stored as an RGBA quadruple; for `L`/`LA`
images the three color components carry the luminance, for `P` images
the palette-resolved color (this is what `convert` to `RGBA` exposes).
-/

/-- PIL color modes appearing in the source (`"1"` is `bilevel`). -/
inductive Mode
  | RGB
  | RGBA
  | L
  | LA
  | P
  | PA
  | CMYK
  | bilevel
deriving DecidableEq

/-- A pixel, stored as an RGBA quadruple of 0-255 components. -/
structure Pix where
  r : Nat
  g : Nat
  b : Nat
  a : Nat
deriving DecidableEq

/-- An in-memory image handle. -/
structure Image where
  mode : Mode
  width : Nat
  height : Nat
  pixels : List Pix
deriving DecidableEq

/-- Model of `PIL.Image.convert` for the targets the claims observe:
conversion to `RGB` drops the alpha channel, conversion to `RGBA` keeps
the stored (already resolved) quadruples; other targets only retag the
mode, which is all the embedded properties inspect. -/
def convertMode (img : Image) (m : Mode) : Image :=
  match m with
  | .RGB => ⟨.RGB, img.width, img.height, img.pixels.map (fun px => ⟨px.r, px.g, px.b, 255⟩)⟩
  | .RGBA => ⟨.RGBA, img.width, img.height, img.pixels⟩
  | _ => ⟨m, img.width, img.height, img.pixels⟩

/-- One channel of pasting a source channel over an opaque white
background through an alpha mask (`background.paste(img, mask=alpha)`). -/
def mixWhite (a c : Nat) : Nat := (a * c + (255 - a) * 255) / 255

/-- A source pixel composited onto white through its own alpha. -/
def blendWhite (px : Pix) : Pix := ⟨mixWhite px.a px.r, mixWhite px.a px.g, mixWhite px.a px.b, 255⟩

/-- A source pixel pasted onto white with no mask: the paste converts
the source to the background mode (`RGB`), covering the background. -/
def toOpaque (px : Pix) : Pix := ⟨px.r, px.g, px.b, 255⟩

/-- Modes the PIL JPEG encoder accepts without raising. -/
def jpegModeOk : Mode → Bool
  | .RGB => true
  | .L => true
  | .CMYK => true
  | _ => false

/-- Modes the PIL PNG encoder accepts without raising. -/
def pngModeOk : Mode → Bool
  | .RGB => true
  | .RGBA => true
  | .L => true
  | .LA => true
  | .P => true
  | .bilevel => true
  | _ => false

/-! ## Per-format normalization (inlined in `save_image_universal`) -/

/-- JPEG-target normalization, format_handler.py 268-276: `RGBA`, `LA`
and `P` sources are pasted onto an opaque white background — `P` after a
conversion to `RGBA` — with the alpha mask used only when the (possibly
converted) source mode is `RGBA`; every other non-`RGB` mode is
converted to `RGB` directly. -/
def jpegNormalize (img : Image) : Image :=
  if img.mode = .RGBA ∨ img.mode = .LA ∨ img.mode = .P then
    let img2 := if img.mode = .P then convertMode img .RGBA else img
    ⟨.RGB, img2.width, img2.height,
      img2.pixels.map (fun px => if img2.mode = .RGBA then blendWhite px else toOpaque px)⟩
  else if img.mode ≠ .RGB then convertMode img .RGB
  else img

/-- PNG-target normalization, format_handler.py 280-281. -/
def pngNormalize (img : Image) : Image :=
  if img.mode = .RGBA ∨ img.mode = .RGB ∨ img.mode = .L then img
  else convertMode img .RGBA

/-- GIF-target normalization, format_handler.py 288-289. -/
def gifNormalize (img : Image) : Image :=
  if img.mode ≠ .P then convertMode img .P else img

/-- BMP/PCX-target normalization, format_handler.py 296-297 and 319-320. -/
def rgbOrLNormalize (img : Image) : Image :=
  if img.mode ≠ .RGB ∧ img.mode ≠ .L then convertMode img .RGB else img

/-- TGA-target normalization, format_handler.py 314-315. -/
def tgaNormalize (img : Image) : Image :=
  if img.mode ≠ .RGB ∧ img.mode ≠ .RGBA then convertMode img .RGBA else img

/-- XBM/PBM-target normalization, format_handler.py 307-308 and 324-325. -/
def bilevelNormalize (img : Image) : Image :=
  if img.mode ≠ .bilevel then convertMode img .bilevel else img

/-- PGM-target normalization, format_handler.py 305-306. -/
def grayNormalize (img : Image) : Image :=
  if img.mode ≠ .L then convertMode img .L else img

/-- PPM-target normalization, format_handler.py 309-310. -/
def rgbNormalize (img : Image) : Image :=
  if img.mode ≠ .RGB then convertMode img .RGB else img

/-! ## `save_image_universal` (format_handler.py 246-396) -/

/-- Capability dispatch of `save_image_universal`: the chain of
extension comparisons of format_handler.py 255-377, one constructor per
arm (`wunsup` is the write-unsupported fallback list of line 359,
`unknown` the final else of line 377). -/
inductive ExtTag
  | pdf
  | svg
  | eps
  | jpeg
  | png
  | webp
  | gif
  | tiff
  | bmp
  | ico
  | ppm
  | pgm
  | pbm
  | tga
  | pcx
  | xbm
  | avif
  | heif
  | wunsup
  | unknown
deriving DecidableEq

/-- The extension dispatch chain of `save_image_universal`. -/
def extTag (ext : String) : ExtTag :=
  if ext = ".pdf" then .pdf
  else if ext = ".svg" then .svg
  else if ext = ".eps" then .eps
  else if ext = ".jpg" ∨ ext = ".jpeg" then .jpeg
  else if ext = ".png" then .png
  else if ext = ".webp" then .webp
  else if ext = ".gif" then .gif
  else if ext = ".tiff" ∨ ext = ".tif" then .tiff
  else if ext = ".bmp" then .bmp
  else if ext = ".ico" then .ico
  else if ext = ".ppm" then .ppm
  else if ext = ".pgm" then .pgm
  else if ext = ".pbm" then .pbm
  else if ext = ".tga" then .tga
  else if ext = ".pcx" then .pcx
  else if ext = ".xbm" then .xbm
  else if ext = ".avif" then .avif
  else if ext = ".heic" ∨ ext = ".heif" then .heif
  else if ext = ".psd" ∨ ext = ".icns" ∨ ext = ".fits" ∨ ext = ".msp" ∨ ext = ".sgi" ∨
          ext = ".spider" ∨ ext = ".xpm" ∨ ext = ".dds" ∨ ext = ".im" then .wunsup
  else .unknown

/-- `FormatHandler.SUPPORTED_FORMATS` (format_handler.py 44-60). -/
def SUPPORTED_FORMATS : List String :=
  [ ".jpg", ".jpeg", ".png", ".gif", ".bmp", ".tiff", ".tif", ".webp",
    ".ico", ".ppm", ".pgm", ".pbm",
    ".avif", ".heic", ".heif",
    ".svg", ".dds", ".tga", ".eps", ".im",
    ".pdf", ".psd", ".icns", ".fits", ".msp",
    ".pcx", ".sgi", ".spider", ".xbm", ".xpm" ]

/-- The write-unsupported fallback list of format_handler.py line 359. -/
def wunsupList : List String :=
  [ ".psd", ".icns", ".fits", ".msp", ".sgi", ".spider", ".xpm", ".dds", ".im" ]

/-- The result dictionary `save_image_universal` returns; absent keys
are `none`. -/
structure SaveResult where
  success : Bool
  fallback : Option Bool
  original_format : Option String
  final_format : Option String
  output_path : Option String
  error : Option String
  message : String
deriving DecidableEq

/-- A file written to disk during a save: path, encoder format, and the
byte size of the encoded output. -/
structure WriteEvent where
  path : String
  fmt : String
  size : Nat
deriving DecidableEq

/-- The runtime environment: optional-encoder availability (the
`try/except` probes of the source), the timestamp the path allocator
would use, and an oracle for the byte size an encoder produces. -/
structure Env where
  avifOk : Bool
  heifOk : Bool
  reportlabOk : Bool
  wandOk : Bool
  ts : Nat
  encSize : String → Image → Nat → Nat

/-- The success dictionary shared by the plain PIL branches
(format_handler.py 385-389). -/
def okSave (ext up : String) : SaveResult :=
  ⟨true, none, none, none, some up, none, "✅ Guardado como " ++ upperStr ext⟩

/-- The dictionary built by the outer `except` clause
(format_handler.py 391-396). -/
def errSave (e : String) : SaveResult :=
  ⟨false, none, none, none, none, some e, "❌ Error: " ++ e⟩

/-- `FormatHandler.save_as_pdf` (format_handler.py 132-179): requires
reportlab, JPEG-encodes into a buffer (RGBA is flattened first), then
writes a single-page PDF at a freshly allocated path. -/
def save_as_pdf (env : Env) (fsE : String → Bool) (img : Image) (output_path : String)
    (quality : Nat) : SaveResult × List WriteEvent :=
  if env.reportlabOk then
    let unique_path := generate_unique_filename fsE env.ts output_path
    let img2 := if img.mode = .RGBA then convertMode img .RGB else img
    if jpegModeOk img2.mode then
      (⟨true, none, none, none, some unique_path, none, "✅ Guardado como PDF"⟩,
       [ ⟨unique_path, "PDF", env.encSize "PDF" img2 quality⟩ ])
    else
      (⟨false, none, none, none, none, some "cannot write mode as JPEG",
        "❌ Error creando PDF: cannot write mode as JPEG"⟩, [])
  else
    (⟨false, none, none, none, none, some "No module named reportlab",
      "❌ Error creando PDF: No module named reportlab"⟩, [])

/-- `FormatHandler.save_as_svg` (format_handler.py 182-211): requires
wand; the pixel data is PNG-encoded into a buffer and handed to the
external converter. -/
def save_as_svg (env : Env) (fsE : String → Bool) (img : Image) (output_path : String) :
    SaveResult × List WriteEvent :=
  if env.wandOk then
    let unique_path := generate_unique_filename fsE env.ts output_path
    if pngModeOk img.mode then
      (⟨true, none, none, none, some unique_path, none, "✅ Guardado como SVG"⟩,
       [ ⟨unique_path, "SVG", env.encSize "SVG" img 0⟩ ])
    else
      (⟨false, none, none, none, none, some "cannot write mode as PNG",
        "❌ Error creando SVG: cannot write mode as PNG"⟩, [])
  else
    (⟨false, none, none, none, none, some "No module named wand",
      "❌ Error creando SVG: No module named wand"⟩, [])

/-- `FormatHandler.save_as_eps` (format_handler.py 214-243). -/
def save_as_eps (env : Env) (fsE : String → Bool) (img : Image) (output_path : String) :
    SaveResult × List WriteEvent :=
  if env.wandOk then
    let unique_path := generate_unique_filename fsE env.ts output_path
    if pngModeOk img.mode then
      (⟨true, none, none, none, some unique_path, none, "✅ Guardado como EPS"⟩,
       [ ⟨unique_path, "EPS", env.encSize "EPS" img 0⟩ ])
    else
      (⟨false, none, none, none, none, some "cannot write mode as PNG",
        "❌ Error creando EPS: cannot write mode as PNG"⟩, [])
  else
    (⟨false, none, none, none, none, some "No module named wand",
      "❌ Error creando EPS: No module named wand"⟩, [])

/-- The body of `save_image_universal` once the extension and its
dispatch arm are known. -/
def saveByTag (env : Env) (fsE : String → Bool) (img : Image) (output_path : String)
    (quality : Nat) (ext : String) : ExtTag → SaveResult × List WriteEvent
  | .pdf => save_as_pdf env fsE img output_path quality
  | .svg => save_as_svg env fsE img output_path
  | .eps => save_as_eps env fsE img output_path
  | .jpeg =>
    let unique_path := generate_unique_filename fsE env.ts output_path
    let img2 := jpegNormalize img
    if jpegModeOk img2.mode then
      (okSave ext unique_path, [ ⟨unique_path, "JPEG", env.encSize "JPEG" img2 quality⟩ ])
    else (errSave "cannot write mode as JPEG", [])
  | .png =>
    let unique_path := generate_unique_filename fsE env.ts output_path
    let img2 := pngNormalize img
    if pngModeOk img2.mode then
      (okSave ext unique_path, [ ⟨unique_path, "PNG", env.encSize "PNG" img2 quality⟩ ])
    else (errSave "cannot write mode as PNG", [])
  | .webp =>
    let unique_path := generate_unique_filename fsE env.ts output_path
    (okSave ext unique_path, [ ⟨unique_path, "WEBP", env.encSize "WEBP" img quality⟩ ])
  | .gif =>
    let unique_path := generate_unique_filename fsE env.ts output_path
    let img2 := gifNormalize img
    (okSave ext unique_path, [ ⟨unique_path, "GIF", env.encSize "GIF" img2 quality⟩ ])
  | .tiff =>
    let unique_path := generate_unique_filename fsE env.ts output_path
    (okSave ext unique_path, [ ⟨unique_path, "TIFF", env.encSize "TIFF" img quality⟩ ])
  | .bmp =>
    let unique_path := generate_unique_filename fsE env.ts output_path
    let img2 := rgbOrLNormalize img
    (okSave ext unique_path, [ ⟨unique_path, "BMP", env.encSize "BMP" img2 quality⟩ ])
  | .ico =>
    let unique_path := generate_unique_filename fsE env.ts output_path
    (okSave ext unique_path, [ ⟨unique_path, "ICO", env.encSize "ICO" img quality⟩ ])
  | .ppm =>
    let unique_path := generate_unique_filename fsE env.ts output_path
    let img2 := rgbNormalize img
    (okSave ext unique_path, [ ⟨unique_path, "PPM", env.encSize "PPM" img2 quality⟩ ])
  | .pgm =>
    let unique_path := generate_unique_filename fsE env.ts output_path
    let img2 := grayNormalize img
    (okSave ext unique_path, [ ⟨unique_path, "PGM", env.encSize "PGM" img2 quality⟩ ])
  | .pbm =>
    let unique_path := generate_unique_filename fsE env.ts output_path
    let img2 := bilevelNormalize img
    (okSave ext unique_path, [ ⟨unique_path, "PBM", env.encSize "PBM" img2 quality⟩ ])
  | .tga =>
    let unique_path := generate_unique_filename fsE env.ts output_path
    let img2 := tgaNormalize img
    (okSave ext unique_path, [ ⟨unique_path, "TGA", env.encSize "TGA" img2 quality⟩ ])
  | .pcx =>
    let unique_path := generate_unique_filename fsE env.ts output_path
    let img2 := rgbOrLNormalize img
    (okSave ext unique_path, [ ⟨unique_path, "PCX", env.encSize "PCX" img2 quality⟩ ])
  | .xbm =>
    let unique_path := generate_unique_filename fsE env.ts output_path
    let img2 := bilevelNormalize img
    (okSave ext unique_path, [ ⟨unique_path, "XBM", env.encSize "XBM" img2 quality⟩ ])
  | .avif =>
    let unique_path := generate_unique_filename fsE env.ts output_path
    if env.avifOk then
      (okSave ext unique_path, [ ⟨unique_path, "AVIF", env.encSize "AVIF" img quality⟩ ])
    else
      let png_path := generate_unique_filename fsE env.ts (replaceAll unique_path ext ".png")
      if pngModeOk img.mode then
        (⟨true, some true, none, none, some png_path, none,
          "⚠️ AVIF no disponible. Convertido a PNG."⟩,
         [ ⟨png_path, "PNG", env.encSize "PNG" img quality⟩ ])
      else (errSave "cannot write mode as PNG", [])
  | .heif =>
    let unique_path := generate_unique_filename fsE env.ts output_path
    if env.heifOk then
      (okSave ext unique_path, [ ⟨unique_path, "HEIF", env.encSize "HEIF" img quality⟩ ])
    else
      let png_path := generate_unique_filename fsE env.ts (replaceAll unique_path ext ".png")
      if pngModeOk img.mode then
        (⟨true, some true, none, none, some png_path, none,
          "⚠️ HEIC/HEIF no disponible. Convertido a PNG."⟩,
         [ ⟨png_path, "PNG", env.encSize "PNG" img quality⟩ ])
      else (errSave "cannot write mode as PNG", [])
  | .wunsup =>
    let unique_path := generate_unique_filename fsE env.ts output_path
    let png_path := generate_unique_filename fsE env.ts (replaceAll unique_path ext ".png")
    let img2 := pngNormalize img
    (⟨true, some true, some ext, some ".png", some png_path, none,
      "⚠️ " ++ upperStr ext ++ " no soportado para escritura. Convertido a PNG."⟩,
     [ ⟨png_path, "PNG", env.encSize "PNG" img2 quality⟩ ])
  | .unknown =>
    (⟨false, none, none, none, none, some ("Formato " ++ ext ++ " no soportado"),
      "❌ Formato " ++ upperStr ext ++ " no reconocido"⟩, [])

/-- Model of `FormatHandler.save_image_universal`
(format_handler.py 246-396): returns the structured result and the list
of files written to disk. -/
def save_image_universal (env : Env) (fsE : String → Bool) (img : Image) (output_path : String)
    (quality : Nat) : SaveResult × List WriteEvent :=
  saveByTag env fsE img output_path quality (extOfPath output_path) (extTag (extOfPath output_path))

/-! ## Resizing (`PIL.Image.thumbnail` / `resize`) -/

/-- `math.floor` of a nonnegative rational, as a natural number. -/
def natFloor (q : ℚ) : Nat := (⌊q⌋).toNat

/-- `math.ceil` of a nonnegative rational, as a natural number. -/
def natCeil (q : ℚ) : Nat := (⌈q⌉).toNat

/-- The `round_aspect` helper inside `PIL.Image.thumbnail`: pick the
floor or the ceiling of the ideal dimension — whichever the key ranks
first, ties going to the floor as Python `min` does — and never go
below one pixel. -/
def round_aspect (number : ℚ) (key : Nat → ℚ) : Nat :=
  max (if key (natFloor number) ≤ key (natCeil number) then natFloor number else natCeil number) 1

/-- Model of `PIL.Image.thumbnail` on dimensions: `(w, h)` are the
image's dimensions, `(x, y)` the requested bounding box.  `none` models
the `ZeroDivisionError` raised when a division by zero is reached. -/
def thumbnail (w h x y : Nat) : Option (Nat × Nat) :=
  if x ≥ w ∧ y ≥ h then some (w, h)
  else if h = 0 then none
  else
    let aspect : ℚ := (w : ℚ) / (h : ℚ)
    if y = 0 then none
    else if aspect ≤ (x : ℚ) / (y : ℚ) then
      some (round_aspect ((y : ℚ) * aspect) (fun n => |aspect - (n : ℚ) / (y : ℚ)|), y)
    else
      some (x, round_aspect ((x : ℚ) / aspect) (fun n => if n = 0 then 0 else |aspect - (x : ℚ) / (n : ℚ)|))

/-- The resize step of `compress_image` (compression_engine.py 50-55)
on dimensions: nothing happens when no size is requested or when the
`(0, 0)` sentinel is passed; otherwise `thumbnail` (aspect preserved) or
an exact `resize`. -/
def applyResize (dims : Nat × Nat) (new_size : Option (Nat × Nat)) (maintain_aspect : Bool) :
    Option (Nat × Nat) :=
  match new_size with
  | none => some dims
  | some ns =>
    if ns ≠ (0, 0) then
      if maintain_aspect then thumbnail dims.1 dims.2 ns.1 ns.2 else some ns
    else some dims

/-! ## CompressionEngine (compression_engine.py) -/

/-- The compression-ratio computation of compression_engine.py 73 and
214: `(1 - compressed / original) * 100 if original_size > 0 else 0`. -/
def ratioPercent (original compressed : Nat) : ℚ :=
  if 0 < original then (1 - (compressed : ℚ) / (original : ℚ)) * 100 else 0

/-- A file on the modelled filesystem: its byte size and, when it is a
decodable image, the decoded handle. -/
structure FsFile where
  size : Nat
  image : Option Image

/-- The filesystem: a map from path to file. -/
def FS : Type := String → Option FsFile

/-- Applying a list of writes to the filesystem. -/
def applyWrites (fs : FS) (ws : List WriteEvent) : FS :=
  ws.foldl (fun acc w => fun p => if p = w.path then some ⟨w.size, none⟩ else acc p) fs

/-- The result dictionary of `compress_image`; absent keys are `none`.
`ratio_pct` models the `compression_ratio` entry. -/
structure CompressResult where
  success : Bool
  original_size : Option Nat
  compressed_size : Option Nat
  ratio_pct : Option ℚ
  original_dimensions : Option (Nat × Nat)
  final_dimensions : Option (Nat × Nat)
  format : Option String
  output_path : Option String
  fallback : Option Bool
  error : Option String
  message : String
  input_path : Option String
deriving DecidableEq

/-- The dictionary built by the outer `except` of `compress_image`
(compression_engine.py 93-98). -/
def failCompress (e : String) : CompressResult :=
  ⟨false, none, none, none, none, none, none, none, none, some e, "❌ Error: " ++ e, none⟩

/-- Model of `CompressionEngine.compress_image`
(compression_engine.py 18-98): decode, optional resize, universal save,
re-measure, ratio.  Returns the result and the filesystem after the
operation's writes. -/
def compress_image (env : Env) (fs : FS) (input_path output_path : String) (quality : Nat)
    (new_size : Option (Nat × Nat)) (maintain_aspect : Bool) : CompressResult × FS :=
  match fs input_path with
  | none => (failCompress "No such file or directory", fs)
  | some f =>
    match f.image with
    | none => (failCompress "cannot identify image file", fs)
    | some img =>
      match applyResize (img.width, img.height) new_size maintain_aspect with
      | none => (failCompress "division by zero", fs)
      | some nd =>
        let img2 : Image := { img with width := nd.1, height := nd.2 }
        let sr := save_image_universal env (fun p => (fs p).isSome) img2 output_path quality
        if sr.1.success then
          let fs2 := applyWrites fs sr.2
          match sr.1.output_path with
          | none => (failCompress "KeyError: output_path", fs2)
          | some fop =>
            match fs2 fop with
            | none => (failCompress "No such file or directory", fs2)
            | some g =>
              ({ success := true, original_size := some f.size, compressed_size := some g.size,
                 ratio_pct := some (ratioPercent f.size g.size),
                 original_dimensions := some (img.width, img.height),
                 final_dimensions := some (img2.width, img2.height),
                 format := some (stripDots (upperStr (splitext fop).2)),
                 output_path := some fop, fallback := some (sr.1.fallback.getD false),
                 error := none, message := sr.1.message, input_path := none }, fs2)
        else
          ({ success := false, original_size := none, compressed_size := none, ratio_pct := none,
             original_dimensions := none, final_dimensions := none, format := none,
             output_path := none, fallback := none,
             error := some (sr.1.error.getD "Error desconocido al guardar"),
             message := sr.1.message, input_path := none }, fs)

/-- The per-item destination path the batch driver builds
(compression_engine.py 127-130). -/
def outPathFor (output_dir output_format p : String) : String :=
  joinPath output_dir ((splitext (basename p)).1 ++ output_format)

/-- Model of `CompressionEngine.compress_multiple_images`
(compression_engine.py 100-165): process the inputs strictly in order,
appending exactly one result per input; per-item failures are ordinary
results of `compress_image`, so the loop always continues. -/
def compress_multiple_images (env : Env) (fs : FS) (image_paths : List String)
    (output_dir output_format : String) (quality : Nat) (new_size : Option (Nat × Nat))
    (maintain_aspect : Bool) : List CompressResult × FS :=
  match image_paths with
  | [] => ([], fs)
  | p :: rest =>
    let pr := compress_image env fs p (outPathFor output_dir output_format p) quality
        new_size maintain_aspect
    let prs := compress_multiple_images env pr.2 rest output_dir output_format quality
        new_size maintain_aspect
    (pr.1 :: prs.1, prs.2)

/-- The result dictionary of `estimate_compressed_size`; `ratio_pct`
models the `compression_ratio` entry. -/
structure EstimateResult where
  success : Bool
  estimated_size : Option Nat
  original_size : Option Nat
  ratio_pct : Option ℚ
  error : Option String
deriving DecidableEq

/-- Model of `CompressionEngine.estimate_compressed_size`
(compression_engine.py 187-228): decode, thumbnail-resize behind the
same `(0, 0)` sentinel, JPEG-family normalization (lines 201-208 repeat
format_handler.py 269-276 verbatim), then a JPEG encode into an
in-memory buffer whose length is the estimate.  The filesystem is
returned so the frame property can be stated. -/
def estimate_compressed_size (env : Env) (fs : FS) (image_path : String) (quality : Nat)
    (new_size : Option (Nat × Nat)) : EstimateResult × FS :=
  match fs image_path with
  | none => (⟨false, none, none, none, some "No such file or directory"⟩, fs)
  | some f =>
    match f.image with
    | none => (⟨false, none, none, none, some "cannot identify image file"⟩, fs)
    | some img =>
      match applyResize (img.width, img.height) new_size true with
      | none => (⟨false, none, none, none, some "division by zero"⟩, fs)
      | some nd =>
        let img2 := jpegNormalize { img with width := nd.1, height := nd.2 }
        if jpegModeOk img2.mode then
          let estimated_size := env.encSize "JPEG" img2 quality
          (⟨true, some estimated_size, some f.size, some (ratioPercent f.size estimated_size),
            none⟩, fs)
        else (⟨false, none, none, none, some "cannot write mode as JPEG"⟩, fs)

/-! ## Spec-side definition used for claim comparison -/

/-- Whether a mode carries an alpha channel. -/
def hasAlphaMode : Mode → Bool
  | .RGBA => true
  | .LA => true
  | .PA => true
  | _ => false

/-- JPEG-family normalization as the specification words it: a source
whose mode has alpha or is palette-indexed is composited onto an opaque
white background using its alpha channel as a mask (or at full opacity
if it has no alpha); any other non-truecolor mode converts to
truecolor-no-alpha.  Defined only to be compared against the code-side
`jpegNormalize`. -/
def specJpegNormalize (img : Image) : Image :=
  if hasAlphaMode img.mode = true ∨ img.mode = .P ∨ img.mode = .PA then
    ⟨.RGB, img.width, img.height,
      img.pixels.map (fun px => if hasAlphaMode img.mode = true then blendWhite px else toOpaque px)⟩
  else if img.mode ≠ .RGB then convertMode img .RGB
  else img

/-! ## Concrete fixtures for witnesses and counterexamples -/

/-- An environment on which none of the optional encoders is available. -/
def envND : Env := ⟨false, false, false, false, 0, fun _ _ _ => 7⟩

/-- A one-pixel truecolor image. -/
def imgRGBex : Image := ⟨.RGB, 1, 1, [ ⟨10, 20, 30, 255⟩ ]⟩

/-- A one-pixel grayscale-alpha image that is fully transparent black. -/
def imgLAex : Image := ⟨.LA, 1, 1, [ ⟨0, 0, 0, 0⟩ ]⟩

/-- A one-pixel palette image. -/
def imgPex : Image := ⟨.P, 1, 1, [ ⟨1, 2, 3, 255⟩ ]⟩

/-- A filesystem containing a single decodable image at `a.png`. -/
def fsOne : FS := fun s => if s = "a.png" then some ⟨100, some imgRGBex⟩ else none

/-- An existence predicate on which only `a.png` exists. -/
def fsEOne : String → Bool := fun s => decide (s = "a.png")


/-! ## Theorems -/

/-- One unfolding of the allocator loop. -/
theorem uniqueLoop_step (fsE : String → Bool) (d n e : String) (ts c : Nat) :
    uniqueLoop fsE d n e ts c =
      if fsE (joinPath d (n ++ "_copy" ++ toString c ++ e)) = false then
        joinPath d (n ++ "_copy" ++ toString c ++ e)
      else if _h : c + 1 > 100 then joinPath d (n ++ "_" ++ toString ts ++ e)
      else uniqueLoop fsE d n e ts (c + 1) := by
  rw [uniqueLoop]

/-- If every candidate from `c` up to (but excluding) `K ≤ 100` exists
and the `K`-th does not, the loop stops exactly at the `K`-th. -/
theorem uniqueLoop_found (fsE : String → Bool) (d n e : String) (ts : Nat) :
    ∀ (m c K : Nat), c ≤ K → K ≤ 100 → K - c = m →
    fsE (joinPath d (n ++ "_copy" ++ toString K ++ e)) = false →
    (∀ j, c ≤ j → j < K → fsE (joinPath d (n ++ "_copy" ++ toString j ++ e)) = true) →
    uniqueLoop fsE d n e ts c = joinPath d (n ++ "_copy" ++ toString K ++ e) := by
  intro m
  induction m with
  | zero =>
    intro c K hcK _hK100 hm hfree _hprev
    have hc : c = K := by omega
    subst hc
    rw [uniqueLoop_step, if_pos hfree]
  | succ m ih =>
    intro c K hcK hK100 hm hfree hprev
    have hlt : c < K := by omega
    have hc : fsE (joinPath d (n ++ "_copy" ++ toString c ++ e)) = true := hprev c le_rfl hlt
    rw [uniqueLoop_step, if_neg (by simp [hc]), dif_neg (by omega : ¬ c + 1 > 100)]
    exact ih (c + 1) K (by omega) hK100 (by omega) hfree (fun j hj1 hj2 => hprev j (by omega) hj2)

/-- If every candidate from `c` to 100 exists, the loop gives up with
the timestamp path. -/
theorem uniqueLoop_exhaust (fsE : String → Bool) (d n e : String) (ts : Nat) :
    ∀ (m c : Nat), 1 ≤ c → c ≤ 100 → 100 - c = m →
    (∀ j, c ≤ j → j ≤ 100 → fsE (joinPath d (n ++ "_copy" ++ toString j ++ e)) = true) →
    uniqueLoop fsE d n e ts c = joinPath d (n ++ "_" ++ toString ts ++ e) := by
  intro m
  induction m with
  | zero =>
    intro c h1 h100 hm hall
    have hc : c = 100 := by omega
    subst hc
    rw [uniqueLoop_step, if_neg (by simp [hall 100 le_rfl le_rfl]), dif_pos (by omega)]
  | succ m ih =>
    intro c h1 h100 hm hall
    rw [uniqueLoop_step, if_neg (by simp [hall c le_rfl h100]),
        dif_neg (by omega : ¬ c + 1 > 100)]
    exact ih (c + 1) (by omega) (by omega) (by omega) (fun j hj1 hj2 => hall j (by omega) hj2)

/-- C4: a free desired path is returned unchanged; an occupied one gets
the first free `_copyN` suffix (stem and extension preserved, `N` from 1
to 100); and when all 100 suffixed candidates exist the allocator
returns the timestamp-suffixed path — with no hypothesis on whether that
path itself exists, i.e. without a further existence check. -/
theorem claim_C4 (fsE : String → Bool) (ts : Nat) (p : String) :
    (fsE p = false → generate_unique_filename fsE ts p = p) ∧
    (fsE p = true → ∀ K, 1 ≤ K → K ≤ 100 → fsE (copyPathOf p K) = false →
      (∀ j, 1 ≤ j → j < K → fsE (copyPathOf p j) = true) →
      generate_unique_filename fsE ts p = copyPathOf p K) ∧
    (fsE p = true → (∀ j, 1 ≤ j → j ≤ 100 → fsE (copyPathOf p j) = true) →
      generate_unique_filename fsE ts p = tsPathOf p ts) := by
  refine ⟨?_, ?_, ?_⟩
  · intro h
    rw [generate_unique_filename, if_pos h]
  · intro hp K hK1 hK100 hfree hprev
    rw [generate_unique_filename, if_neg (by simp [hp])]
    exact uniqueLoop_found fsE (dirname p) (splitext (basename p)).1 (splitext (basename p)).2
      ts (K - 1) 1 K hK1 hK100 (by omega) hfree hprev
  · intro hp hall
    rw [generate_unique_filename, if_neg (by simp [hp])]
    exact uniqueLoop_exhaust fsE (dirname p) (splitext (basename p)).1 (splitext (basename p)).2
      ts 99 1 le_rfl (by omega) (by omega) hall

/-- C4 witness: with only `a.png` existing, allocating `a.png` yields
`a_copy1.png`. -/
theorem claim_C4_witness :
    generate_unique_filename fsEOne 0 "a.png" = copyPathOf "a.png" 1 :=
  (claim_C4 fsEOne 0 "a.png").2.1 (by decide) 1 le_rfl (by omega) (by decide)
    (fun j hj1 hj2 => absurd (lt_of_le_of_lt hj1 hj2) (lt_irrefl 1))

/-- C7: the reported compression ratio is `(1 - final/original) * 100`
whenever the original byte size is nonzero, and `0` when the original
size is zero, so the guarded computation never divides by zero.
`ratioPercent` is the expression `compress_image` and
`estimate_compressed_size` both store in their `compression_ratio`
field. -/
theorem claim_C7 (o f : Nat) :
    (o ≠ 0 → ratioPercent o f = (1 - (f : ℚ) / (o : ℚ)) * 100) ∧ ratioPercent 0 f = 0 := by
  constructor
  · intro h
    rw [ratioPercent, if_pos (Nat.pos_of_ne_zero h)]
  · rw [ratioPercent, if_neg (lt_irrefl 0)]

/-- C7 witness at original size 2, final size 1 (and at original size 0). -/
theorem claim_C7_witness :
    ratioPercent 2 1 = (1 - (1 : ℚ) / (2 : ℚ)) * 100 ∧ ratioPercent 0 3 = 0 :=
  ⟨(claim_C7 2 1).1 (by decide), (claim_C7 0 3).2⟩

/-- C9: `estimate_compressed_size` leaves the filesystem exactly as it
found it — its only encode targets an in-memory buffer, so no file is
created, modified or deleted for any input, quality or requested size. -/
theorem claim_C9 (env : Env) (fs : FS) (p : String) (q : Nat) (ns : Option (Nat × Nat)) :
    (estimate_compressed_size env fs p q ns).2 = fs := by
  unfold estimate_compressed_size
  split
  · rfl
  · split
    · rfl
    · split
      · rfl
      · dsimp only
        split <;> rfl

/-- Passing the `(0, 0)` sentinel to the resize step is the same as
passing no size at all. -/
theorem applyResize_sentinel (d : Nat × Nat) (m : Bool) :
    applyResize d (some (0, 0)) m = applyResize d none m := by
  simp [applyResize]

/-- C10: the `(0, 0)` target is a disable-resize sentinel: the resize
step returns the original dimensions unchanged, and both
`compress_image` and `estimate_compressed_size` behave exactly as if no
target dimensions had been passed. -/
theorem claim_C10 (env : Env) (fs : FS) (ip op : String) (q : Nat) (ma : Bool) (w h : Nat) :
    applyResize (w, h) (some (0, 0)) ma = some (w, h) ∧
    compress_image env fs ip op q (some (0, 0)) ma = compress_image env fs ip op q none ma ∧
    estimate_compressed_size env fs ip q (some (0, 0)) =
      estimate_compressed_size env fs ip q none := by
  refine ⟨by simp [applyResize], ?_, ?_⟩
  · unfold compress_image
    simp only [applyResize_sentinel]
  · unfold estimate_compressed_size
    simp only [applyResize_sentinel]

/-- C6 counterexample: a palette (`P`) image does not pass through the
PNG normalization unchanged — the code converts it to truecolor-alpha,
while the claim says indexed-palette sources keep their mode. -/
theorem claim_C6_counterexample :
    imgPex.mode = Mode.P ∧ pngNormalize imgPex ≠ imgPex ∧
    (pngNormalize imgPex).mode = Mode.RGBA := by decide

/-- C6 amended: only truecolor (with or without alpha) and plain
grayscale (`L`) pass through the PNG normalization unchanged; every
other mode — including indexed-palette and grayscale-alpha — is
converted to truecolor-alpha before encoding. -/
theorem claim_C6_amended (img : Image) :
    ((img.mode = Mode.RGBA ∨ img.mode = Mode.RGB ∨ img.mode = Mode.L) →
      pngNormalize img = img) ∧
    (¬(img.mode = Mode.RGBA ∨ img.mode = Mode.RGB ∨ img.mode = Mode.L) →
      (pngNormalize img).mode = Mode.RGBA) := by
  constructor
  · intro h
    rw [pngNormalize, if_pos h]
  · intro h
    rw [pngNormalize, if_neg h]
    rfl

/-- C6 witness: a truecolor image passes through; the palette image is
retagged to truecolor-alpha. -/
theorem claim_C6_witness :
    pngNormalize imgRGBex = imgRGBex ∧ (pngNormalize imgPex).mode = Mode.RGBA :=
  ⟨(claim_C6_amended imgRGBex).1 (Or.inr (Or.inl rfl)), (claim_C6_amended imgPex).2 (by decide)⟩

/-- C5 counterexample: a grayscale-alpha (`LA`) source has an alpha
channel, yet the JPEG normalization pastes it onto white with no mask
(the mask is used only for `RGBA`), so a fully transparent black pixel
stays black where the claimed alpha-mask compositing would leave it
white. -/
theorem claim_C5_counterexample :
    hasAlphaMode imgLAex.mode = true ∧
    jpegNormalize imgLAex ≠ specJpegNormalize imgLAex ∧
    (jpegNormalize imgLAex).pixels = [ ⟨0, 0, 0, 255⟩ ] ∧
    (specJpegNormalize imgLAex).pixels = [ ⟨255, 255, 255, 255⟩ ] := by decide

/-- C5 amended: for JPEG-family targets the result is always
truecolor-no-alpha and the encode accepts it, but the white compositing
uses the alpha channel as a mask only for `RGBA` sources (and for
palette sources after their conversion to `RGBA`); a grayscale-alpha
source is pasted at full opacity, its alpha discarded; every other
non-truecolor mode is converted directly. -/
theorem claim_C5_amended (img : Image) :
    (jpegNormalize img).mode = Mode.RGB ∧
    (img.mode = Mode.RGBA → (jpegNormalize img).pixels = img.pixels.map blendWhite) ∧
    (img.mode = Mode.P → (jpegNormalize img).pixels = img.pixels.map blendWhite) ∧
    (img.mode = Mode.LA → (jpegNormalize img).pixels = img.pixels.map toOpaque) ∧
    (∀ (env : Env) (fsE : String → Bool) (op : String) (q : Nat),
      (extOfPath op = ".jpg" ∨ extOfPath op = ".jpeg") →
      (save_image_universal env fsE img op q).1.success = true) := by
  obtain ⟨m, w, h, px⟩ := img
  have hRGB : (jpegNormalize ⟨m, w, h, px⟩).mode = Mode.RGB := by
    cases m <;> simp [jpegNormalize, convertMode]
  refine ⟨hRGB, ?_, ?_, ?_, ?_⟩
  · intro hm
    have : m = Mode.RGBA := hm
    subst this
    simp [jpegNormalize]
  · intro hm
    have : m = Mode.P := hm
    subst this
    simp [jpegNormalize, convertMode]
  · intro hm
    have : m = Mode.LA := hm
    subst this
    simp [jpegNormalize]
  · intro env fsE op q hop
    have htag : extTag (extOfPath op) = ExtTag.jpeg := by
      rcases hop with hx | hx <;> rw [hx] <;> decide
    unfold save_image_universal
    rw [htag]
    simp [saveByTag, hRGB, jpegModeOk, okSave]

/-- C5 witness: the LA behavior at a concrete image, and a successful
JPEG-family save of a truecolor image. -/
theorem claim_C5_witness :
    (jpegNormalize imgLAex).pixels = imgLAex.pixels.map toOpaque ∧
    (save_image_universal envND (fun _ => false) imgRGBex "a.jpg" 85).1.success = true :=
  ⟨(claim_C5_amended imgLAex).2.2.2.1 rfl,
   (claim_C5_amended imgRGBex).2.2.2.2 envND (fun _ => false) "a.jpg" 85 (Or.inl (by decide))⟩

/-- The floor of a rational is at most its ceiling, in `Nat`. -/
theorem natFloor_le_natCeil (q : ℚ) : natFloor q ≤ natCeil q := by
  unfold natFloor natCeil
  exact Int.toNat_le_toNat (Int.floor_le_ceil q)

/-- The ceiling of a rational bounded by a natural is at most it. -/
theorem natCeil_le (q : ℚ) (m : Nat) (hq : q ≤ (m : ℚ)) : natCeil q ≤ m := by
  unfold natCeil
  rw [Int.toNat_le]
  exact Int.ceil_le.mpr (by exact_mod_cast hq)

/-- `round_aspect` never exceeds a bound that dominates its input,
whatever key is used, as long as the bound is at least one pixel. -/
theorem round_aspect_le (q : ℚ) (k : Nat → ℚ) (m : Nat) (hq : q ≤ (m : ℚ)) (hm : 1 ≤ m) :
    round_aspect q k ≤ m := by
  have hc : natCeil q ≤ m := natCeil_le q m hq
  have hf : natFloor q ≤ m := le_trans (natFloor_le_natCeil q) hc
  unfold round_aspect
  apply max_le _ hm
  split <;> assumption

/-- `thumbnail` never produces a dimension exceeding the corresponding
original dimension. -/
theorem thumbnail_le (w h x y a b : Nat) (hw : 1 ≤ w) (hh : 1 ≤ h)
    (ht : thumbnail w h x y = some (a, b)) : a ≤ w ∧ b ≤ h := by
  have hq0 : (0 : ℚ) < (h : ℚ) := by exact_mod_cast hh
  have hw0 : (0 : ℚ) < (w : ℚ) := by exact_mod_cast hw
  simp only [thumbnail] at ht
  split_ifs at ht with c1 c2 c3 c4
  · simp only [Option.some.injEq, Prod.mk.injEq] at ht
    obtain ⟨rfl, rfl⟩ := ht
    exact ⟨le_rfl, le_rfl⟩
  · -- the bounding box is relatively wider than the image: keep `y`
    have hy0 : (0 : ℚ) < (y : ℚ) := by
      have : 0 < y := Nat.pos_of_ne_zero c3
      exact_mod_cast this
    have hcross : (w : ℚ) * y ≤ (x : ℚ) * h := (div_le_div_iff₀ hq0 hy0).mp c4
    push_neg at c1
    have hyh : y ≤ h := by
      by_cases hxw : x < w
      · have hx : (x : ℚ) * h < (w : ℚ) * h :=
          mul_lt_mul_of_pos_right (by exact_mod_cast hxw) hq0
        have : (w : ℚ) * y < (w : ℚ) * h := lt_of_le_of_lt hcross hx
        have : (y : ℚ) < (h : ℚ) := lt_of_mul_lt_mul_left this (le_of_lt hw0)
        exact le_of_lt (by exact_mod_cast this)
      · exact le_of_lt (c1 (by omega))
    have hbound : (y : ℚ) * ((w : ℚ) / (h : ℚ)) ≤ (w : ℚ) := by
      have h1 : (y : ℚ) * ((w : ℚ) / (h : ℚ)) ≤ (h : ℚ) * ((w : ℚ) / (h : ℚ)) := by
        apply mul_le_mul_of_nonneg_right (by exact_mod_cast hyh)
        positivity
      have h2 : (h : ℚ) * ((w : ℚ) / (h : ℚ)) = (w : ℚ) := by
        field_simp
      rw [h2] at h1
      exact h1
    simp only [Option.some.injEq, Prod.mk.injEq] at ht
    obtain ⟨rfl, rfl⟩ := ht
    exact ⟨round_aspect_le _ _ w hbound hw, hyh⟩
  · -- the bounding box is relatively taller than the image: keep `x`
    have hy0 : (0 : ℚ) < (y : ℚ) := by
      have : 0 < y := Nat.pos_of_ne_zero c3
      exact_mod_cast this
    have hcross : (x : ℚ) * h < (w : ℚ) * y := by
      have := lt_of_not_le c4
      exact (div_lt_div_iff₀ hy0 hq0).mp this
    push_neg at c1
    have hxw : x ≤ w := by
      by_cases hyh : y < h
      · have hy : (w : ℚ) * y < (w : ℚ) * h :=
          mul_lt_mul_of_pos_left (by exact_mod_cast hyh) hw0
        have : (x : ℚ) * h < (w : ℚ) * h := lt_trans hcross hy
        have : (x : ℚ) < (w : ℚ) := lt_of_mul_lt_mul_right this (le_of_lt hq0)
        exact le_of_lt (by exact_mod_cast this)
      · have hxw2 : x < w := by
          by_contra hcon
          exact hyh (c1 (by omega))
        exact le_of_lt hxw2
    have hbound : (x : ℚ) / ((w : ℚ) / (h : ℚ)) ≤ (h : ℚ) := by
      rw [div_div_eq_mul_div]
      rw [div_le_iff₀ hw0]
      have : (x : ℚ) * h ≤ (w : ℚ) * h :=
        mul_le_mul_of_nonneg_right (by exact_mod_cast hxw) (le_of_lt hq0)
      linarith
    simp only [Option.some.injEq, Prod.mk.injEq] at ht
    obtain ⟨rfl, rfl⟩ := ht
    exact ⟨hxw, round_aspect_le _ _ h hbound hh⟩

/-- C8: with aspect preservation on, the resize step of
`compress_image` never produces a dimension exceeding the corresponding
original one; with aspect preservation off (and a real, non-sentinel
target), the output dimensions are exactly the requested ones. -/
theorem claim_C8 (w h : Nat) (ns : Nat × Nat) (a b : Nat) :
    (1 ≤ w → 1 ≤ h → applyResize (w, h) (some ns) true = some (a, b) → a ≤ w ∧ b ≤ h) ∧
    (ns ≠ (0, 0) → applyResize (w, h) (some ns) false = some ns) := by
  constructor
  · intro hw hh har
    simp only [applyResize] at har
    by_cases hns : ns = (0, 0)
    · rw [if_neg (by simp [hns])] at har
      simp only [Option.some.injEq, Prod.mk.injEq] at har
      obtain ⟨rfl, rfl⟩ := har
      exact ⟨le_rfl, le_rfl⟩
    · rw [if_pos hns, if_pos trivial] at har
      exact thumbnail_le w h ns.1 ns.2 a b hw hh har
  · intro hns
    simp only [applyResize]
    rw [if_pos hns]
    simp

/-- C8 witness: a 2-by-2 image fitted into a 1-by-1 box shrinks within
bounds; a forced resize to 5-by-7 is exact. -/
theorem claim_C8_witness :
    ((1 : Nat) ≤ 2 ∧ (1 : Nat) ≤ 2) ∧ applyResize (2, 2) (some (5, 7)) false = some (5, 7) :=
  ⟨(claim_C8 2 2 (1, 1) 1 1).1 (by decide) (by decide)
      (by norm_num [applyResize, thumbnail, round_aspect, natFloor, natCeil]),
   (claim_C8 2 2 (5, 7) 0 0).2 (by decide)⟩

/-- Extensions on the write-unsupported list dispatch to the PNG
fallback arm. -/
theorem extTag_wunsup (ext : String) (h : ext ∈ wunsupList) : extTag ext = ExtTag.wunsup := by
  simp only [wunsupList, List.mem_cons, List.not_mem_nil, or_false] at h
  rcases h with rfl | rfl | rfl | rfl | rfl | rfl | rfl | rfl | rfl <;> decide

/-- Extensions outside the capability table dispatch to the unknown
arm. -/
theorem extTag_eq_unknown (ext : String) (h : ext ∉ SUPPORTED_FORMATS) :
    extTag ext = ExtTag.unknown := by
  simp only [SUPPORTED_FORMATS, List.mem_cons, List.not_mem_nil, or_false, not_or] at h
  obtain ⟨h1, h2, h3, h4, h5, h6, h7, h8, h9, h10, h11, h12, h13, h14, h15, h16, h17, h18,
    h19, h20, h21, h22, h23, h24, h25, h26, h27, h28, h29, h30⟩ := h
  simp [extTag, h1, h2, h3, h4, h5, h6, h7, h8, h9, h10, h11, h12, h13, h14, h15, h16, h17,
    h18, h19, h20, h21, h22, h23, h24, h25, h26, h27, h28, h29, h30]

/-- C2: saving to an extension absent from the capability table always
fails with the unsupported-format error, and nothing is written — in
particular no PNG fallback is attempted. -/
theorem claim_C2 (env : Env) (fsE : String → Bool) (img : Image) (p : String) (q : Nat)
    (h : extOfPath p ∉ SUPPORTED_FORMATS) :
    (save_image_universal env fsE img p q).1.success = false ∧
    (save_image_universal env fsE img p q).1.error =
      some ("Formato " ++ extOfPath p ++ " no soportado") ∧
    (save_image_universal env fsE img p q).2 = [] := by
  have ht : extTag (extOfPath p) = ExtTag.unknown := extTag_eq_unknown _ h
  unfold save_image_universal
  rw [ht]
  exact ⟨rfl, rfl, rfl⟩

/-- C2 witness: saving to `a.xyz` fails without writing. -/
theorem claim_C2_witness :
    (save_image_universal envND (fun _ => false) imgRGBex "a.xyz" 85).1.success = false ∧
    (save_image_universal envND (fun _ => false) imgRGBex "a.xyz" 85).1.error =
      some ("Formato " ++ extOfPath "a.xyz" ++ " no soportado") ∧
    (save_image_universal envND (fun _ => false) imgRGBex "a.xyz" 85).2 = [] :=
  claim_C2 envND (fun _ => false) imgRGBex "a.xyz" 85 (by decide)

/-- C1 counterexample: saving to `.avif` on a runtime without the AVIF
encoder does fall back to PNG (success, fallback flag set), but the
returned result records neither the originally requested format nor the
final format — `final_format` is absent, not `".png"` as the claim
states. -/
theorem claim_C1_counterexample :
    (save_image_universal envND (fun _ => false) imgRGBex "photo.avif" 85).1.success = true ∧
    (save_image_universal envND (fun _ => false) imgRGBex "photo.avif" 85).1.fallback
      = some true ∧
    (save_image_universal envND (fun _ => false) imgRGBex "photo.avif" 85).1.original_format
      = none ∧
    (save_image_universal envND (fun _ => false) imgRGBex "photo.avif" 85).1.final_format
      = none ∧
    ((save_image_universal envND (fun _ => false) imgRGBex "photo.avif" 85).2.map
      WriteEvent.fmt) = [ "PNG" ] := by
  decide

/-- C1 amended: both fallback families produce success-with-fallback
and write PNG, but only the write-unsupported legacy formats record the
originally requested format and `final_format = ".png"` in the result;
the best-effort formats (`.avif`, `.heic`, `.heif`, when their encoder
raises) return the fallback result without those two fields. -/
theorem claim_C1_amended (env : Env) (fsE : String → Bool) (img : Image) (p : String) (q : Nat) :
    (extOfPath p ∈ wunsupList →
      (save_image_universal env fsE img p q).1.success = true ∧
      (save_image_universal env fsE img p q).1.fallback = some true ∧
      (save_image_universal env fsE img p q).1.original_format = some (extOfPath p) ∧
      (save_image_universal env fsE img p q).1.final_format = some ".png" ∧
      ((save_image_universal env fsE img p q).2.map WriteEvent.fmt) = [ "PNG" ]) ∧
    (extOfPath p = ".avif" → env.avifOk = false → pngModeOk img.mode = true →
      (save_image_universal env fsE img p q).1.success = true ∧
      (save_image_universal env fsE img p q).1.fallback = some true ∧
      (save_image_universal env fsE img p q).1.original_format = none ∧
      (save_image_universal env fsE img p q).1.final_format = none ∧
      ((save_image_universal env fsE img p q).2.map WriteEvent.fmt) = [ "PNG" ]) ∧
    ((extOfPath p = ".heic" ∨ extOfPath p = ".heif") → env.heifOk = false →
      pngModeOk img.mode = true →
      (save_image_universal env fsE img p q).1.success = true ∧
      (save_image_universal env fsE img p q).1.fallback = some true ∧
      (save_image_universal env fsE img p q).1.original_format = none ∧
      (save_image_universal env fsE img p q).1.final_format = none ∧
      ((save_image_universal env fsE img p q).2.map WriteEvent.fmt) = [ "PNG" ]) := by
  refine ⟨?_, ?_, ?_⟩
  · intro hm
    have ht : extTag (extOfPath p) = ExtTag.wunsup := extTag_wunsup _ hm
    unfold save_image_universal
    rw [ht]
    exact ⟨rfl, rfl, rfl, rfl, rfl⟩
  · intro hx h2 h3
    have ht : extTag (extOfPath p) = ExtTag.avif := by rw [hx]; decide
    unfold save_image_universal
    rw [ht]
    simp [saveByTag, h2, h3]
  · intro hx h2 h3
    have ht : extTag (extOfPath p) = ExtTag.heif := by
      rcases hx with hx | hx <;> rw [hx] <;> decide
    unfold save_image_universal
    rw [ht]
    simp [saveByTag, h2, h3]

/-- C1 witness: the write-unsupported case at `a.psd`, where the result
does carry both format fields. -/
theorem claim_C1_witness :
    (save_image_universal envND (fun _ => false) imgRGBex "a.psd" 85).1.success = true ∧
    (save_image_universal envND (fun _ => false) imgRGBex "a.psd" 85).1.fallback = some true ∧
    (save_image_universal envND (fun _ => false) imgRGBex "a.psd" 85).1.original_format
      = some (extOfPath "a.psd") ∧
    (save_image_universal envND (fun _ => false) imgRGBex "a.psd" 85).1.final_format
      = some ".png" ∧
    ((save_image_universal envND (fun _ => false) imgRGBex "a.psd" 85).2.map WriteEvent.fmt)
      = [ "PNG" ] :=
  (claim_C1_amended envND (fun _ => false) imgRGBex "a.psd" 85).1 (by decide)

/-- C3: the batch driver returns exactly one result per input, in input
order: the result at index `i` is the outcome of compressing input `i`
on the filesystem left by the first `i` items — so a failing item
contributes its own failure result at its own index and never prevents
the later items from being processed. -/
theorem claim_C3 (env : Env) (fs : FS) (paths : List String) (outd outf : String) (q : Nat)
    (ns : Option (Nat × Nat)) (ma : Bool) :
    (compress_multiple_images env fs paths outd outf q ns ma).1.length = paths.length ∧
    (∀ (i : Nat) (p : String), paths.get? i = some p →
      (compress_multiple_images env fs paths outd outf q ns ma).1.get? i =
        some (compress_image env
          (compress_multiple_images env fs (paths.take i) outd outf q ns ma).2
          p (outPathFor outd outf p) q ns ma).1) := by
  induction paths generalizing fs with
  | nil =>
    refine ⟨rfl, fun i p hp => ?_⟩
    simp [List.get?] at hp
  | cons hd tl ih =>
    constructor
    · simp only [compress_multiple_images, List.length_cons]
      exact congrArg Nat.succ
        (ih (compress_image env fs hd (outPathFor outd outf hd) q ns ma).2).1
    · intro i p hp
      cases i with
      | zero =>
        have hp' : hd = p := by
          simpa using hp
        subst hp'
        rfl
      | succ i =>
        have hp' : tl.get? i = some p := hp
        exact (ih (compress_image env fs hd (outPathFor outd outf hd) q ns ma).2).2 i p hp'

/-- C3 witness: a single-item batch has one result, which is the
outcome of compressing that item. -/
theorem claim_C3_witness :
    (compress_multiple_images envND fsOne [ "a.png" ] "out" ".jpg" 85 none true).1.length
      = [ "a.png" ].length ∧
    (compress_multiple_images envND fsOne [ "a.png" ] "out" ".jpg" 85 none true).1.get? 0 =
      some (compress_image envND
        (compress_multiple_images envND fsOne ([ "a.png" ].take 0) "out" ".jpg" 85 none true).2
        "a.png" (outPathFor "out" ".jpg" "a.png") 85 none true).1 :=
  ⟨(claim_C3 envND fsOne [ "a.png" ] "out" ".jpg" 85 none true).1,
   (claim_C3 envND fsOne [ "a.png" ] "out" ".jpg" 85 none true).2 0 "a.png" rfl⟩
